import Mathlib

/-!
Shallow embedding of the CyclomediaView street-view component
(web/client/plugins/StreetView/components/cyclomedia path in MapStore2).

The component wraps the Cyclomedia StreetSmart API: it derives error
messages (getErrorMessage), renders an empty-state placeholder
(EmptyView), runs an init/destroy lifecycle effect keyed on
(StreetSmartApi, username, password, apiKey, reload), runs an
open-image/subscribe effect keyed on (StreetSmartApi, initialized,
imageId), forwards viewer events through changeView/changeRecording,
and selects between credentials form, empty view, panorama viewer and
error banner with boolean flags.

JavaScript conventions mapped into Lean:
- optional / possibly-undefined fields are Option;
- string truthiness (empty string is falsy) is the function truthyStr;
- a handler that may call a host callback zero or more times is a
  function returning the List of call arguments, in call order;
- effect bodies and cleanups are functions returning the List of
  externally visible actions they perform, in program order.
-/

namespace Cyclomedia

/-- JavaScript truthiness of a possibly-absent string: `undefined` and
the empty string are falsy, any other string is truthy. -/
def truthyStr : Option String → Bool
  | some s => s ≠ ""
  | none => false

theorem truthyStr_iff (x : Option String) :
    truthyStr x = true ↔ ∃ s, x = some s ∧ s ≠ "" := by
  cases x with
  | none => simp [truthyStr]
  | some s => simp [truthyStr]

/-! ### Error payloads and getErrorMessage -/

/-- A failure payload as the component can receive it from a rejected
promise: either a plain string, or an object carrying an optional
`message` field (plain objects have no `indexOf` method). -/
inductive ErrorPayload where
  | str : String → ErrorPayload
  | obj : Option String → ErrorPayload
deriving DecidableEq

/-- The indicator searched for by getErrorMessage. -/
def userInfo401 : String := "init::Loading user info failed with status code 401"

/-- Boolean counterpart of JavaScript `s.indexOf(pat) >= 0`: some
position of `s` starts an occurrence of `pat`. -/
def jsIndexOfNonneg (s pat : String) : Bool :=
  (List.range (s.toList.length + 1)).any fun i =>
    List.isPrefixOf pat.toList (s.toList.drop i)

/-- Result of getErrorMessage: either a localized Message element with
a message id, or a plain text string. -/
inductive ErrMsg where
  | localized : String → ErrMsg
  | text : String → ErrMsg
deriving DecidableEq

/-- Embedding of getErrorMessage. The source first evaluates
`error?.indexOf?.(userInfo401) >= 0`: only a string payload has an
`indexOf` method, so only a string payload can take the localized
branch. Otherwise it returns `error?.message ?? "Unknown error"`:
a string has no `message` field, an object contributes its optional
`message`, and an absent (null) error yields the fallback. -/
def getErrorMessage : Option ErrorPayload → ErrMsg
  | some (.str s) =>
    if jsIndexOfNonneg s userInfo401 then
      .localized "streetView.cyclomedia.invalidCredentials"
    else
      .text "Unknown error"
  | some (.obj m) => .text (m.getD "Unknown error")
  | none => .text "Unknown error"

/-! ### Viewer event handlers -/

/-- A recording as delivered in a recording-click event detail: an
optional coordinate array `xyz` (a JavaScript array of any length is
truthy, even the empty one), an optional `id`, and the remaining
feature fields carried through the object spread. -/
structure Recording where
  xyz : Option (List Int)
  id : Option String
  extra : List (String × String)
deriving DecidableEq

/-- Detail of a recording-click event. -/
structure RecordingDetail where
  recording : Option Recording
deriving DecidableEq

/-- latLng as forwarded to setLocation; indexing past the end of `xyz`
yields `undefined`, hence Option. -/
structure LatLng where
  lat : Option Int
  lng : Option Int
deriving DecidableEq

/-- Properties forwarded to setLocation: the spread of the full
recording object followed by the `imageId` field. -/
structure LocationProps where
  recording : Recording
  imageId : Option String
deriving DecidableEq

/-- Argument of a setLocation call. -/
structure Location where
  latLng : LatLng
  properties : LocationProps
deriving DecidableEq

/-- Embedding of changeRecording: returns the list of setLocation
calls one handler invocation performs. The source destructures
`{detail} = {}` then `const {recording} = detail ?? {}` and guards on
`recording?.xyz && recording?.id` (truthiness: any array passes, an
empty-string id does not); inside the guard it reads `xyz[1]` as lat,
`xyz[0]` as lng and spreads the recording with `imageId: recording?.id`. -/
def changeRecording (detail : Option RecordingDetail) : List Location :=
  match detail with
  | none => []
  | some d =>
    match d.recording with
    | none => []
    | some r =>
      match r.xyz, r.id with
      | some xs, some i =>
        if i ≠ "" then
          [{ latLng := { lat := xs.get? 1, lng := xs.get? 0 },
             properties := { recording := r, imageId := some i } }]
        else []
      | some _, none => []
      | none, _ => []

/-- Detail of a view-change event: optional yaw and pitch. -/
structure ViewDetail where
  yaw : Option Int
  pitch : Option Int
deriving DecidableEq

/-- Argument of a setPov call. -/
structure Pov where
  heading : Option Int
  pitch : Option Int
deriving DecidableEq

/-- Embedding of changeView: returns the list of setPov calls one
handler invocation performs. The source destructures
`{detail} = {}` then `const {yaw: heading, pitch} = detail ?? {}` and
unconditionally calls `setPov({heading, pitch})`; a missing detail or
missing fields forward `undefined`. -/
def changeView (detail : Option ViewDetail) : List Pov :=
  match detail with
  | none => [{ heading := none, pitch := none }]
  | some d => [{ heading := d.yaw, pitch := d.pitch }]

/-! ### Init effect (Lifecycle Controller) -/

/-- Inputs of the init effect, its dependency list apart from the
reload counter: whether the StreetSmartApi handle resolved, and the
username, password and apiKey strings (absent or empty is falsy). -/
structure InitInputs where
  streetSmartApi : Bool
  username : Option String
  password : Option String
  apiKey : Option String
deriving DecidableEq

/-- The guard of the init effect:
`if (!StreetSmartApi || !username || !password || !apiKey) return () => {};`. -/
def initGuard (i : InitInputs) : Bool :=
  i.streetSmartApi && truthyStr i.username && truthyStr i.password && truthyStr i.apiKey

/-- How the init promise settled, as observed by this run:
resolved, rejected, or still pending. -/
inductive InitOutcome where
  | success
  | failure
  | pending
deriving DecidableEq

/-- Externally visible actions of the init effect. The initCall
action carries the targetElement (modelled as an optional element
identifier) and the three credential strings; the fixed options
(loginOauth false, srs EPSG:4326, locale en-us) and the spread
initOptions passthrough are constants of the call site not inspected
by any claim. -/
inductive InitAction where
  | setInitializing : Bool → InitAction
  | initCall : Option Nat → String → String → String → InitAction
  | setInitialized : Bool → InitAction
  | setInitError : InitAction
  | destroyCall : Option Nat → InitAction
  | logDestroyError : InitAction
deriving DecidableEq

/-- The body of the init effect: behind the guard it sets
initializing and issues StreetSmartApi.init; the promise resolution
then resets initializing and either sets initialized or records the
error. A run whose guard fails performs nothing. -/
def initBody (i : InitInputs) (target : Option Nat) (o : InitOutcome) : List InitAction :=
  if initGuard i then
    [.setInitializing true,
     .initCall target (i.username.getD "") (i.password.getD "") (i.apiKey.getD "")] ++
    (match o with
     | .success => [.setInitializing false, .setInitialized true]
     | .failure => [.setInitializing false, .setInitError]
     | .pending => [])
  else []

/-- One attempted destroy: the call happens, then either returns or
throws. First component is the emitted action list, second is whether
an exception was raised by the call. -/
def destroyAttempt (throws : Bool) (target : Option Nat) : List InitAction × Bool :=
  ([.destroyCall target], throws)

/-- The cleanup of the init effect. A run whose guard failed returned
the empty cleanup `() => {}`. Otherwise the cleanup closes over the
StreetSmartApi and targetElement of its own run and evaluates
`try { StreetSmartApi?.destroy?.({targetElement}) } catch (e) { console.error(e) }`:
the optional call is skipped when the api has no destroy method, and
a thrown failure is converted into a log action by the catch. First
component is the emitted action list, second is whether an exception
escapes the cleanup. -/
def initCleanup (i : InitInputs) (target : Option Nat)
    (hasDestroy destroyThrows : Bool) : List InitAction × Bool :=
  if initGuard i then
    if hasDestroy then
      match destroyAttempt destroyThrows target with
      | (as, true) => (as ++ [.logDestroyError], false)
      | (as, false) => (as, false)
    else ([], false)
  else ([], false)

/-- Recognizer for initCall actions. -/
def isInitCall : InitAction → Bool
  | .initCall _ _ _ _ => true
  | _ => false

/-- Recognizer for destroyCall actions. -/
def isDestroyCall : InitAction → Bool
  | .destroyCall _ => true
  | _ => false

/-- One completed run of the init effect, as the next re-run sees it:
its inputs, its captured targetElement, how its init promise settled,
whether the api object carries a destroy method, and whether destroy
throws when called during cleanup. -/
structure InitRun where
  inputs : InitInputs
  target : Option Nat
  outcome : InitOutcome
  hasDestroy : Bool
  destroyThrows : Bool
deriving DecidableEq

/-- A re-run of the init effect for new inputs: the previous run's
cleanup executes first, then the body for the new inputs. -/
def initRerunTrace (prev : InitRun) (next : InitInputs)
    (nextTarget : Option Nat) (nextOutcome : InitOutcome) : List InitAction :=
  (initCleanup prev.inputs prev.target prev.hasDestroy prev.destroyThrows).1 ++
    initBody next nextTarget nextOutcome

/-! ### Open-image effect (Viewer Session Manager) -/

/-- Inputs of the open-image effect: api handle presence, the
initialized flag, and the imageId (absent or empty is falsy). -/
structure OpenInputs where
  api : Bool
  initialized : Bool
  imageId : Option String
deriving DecidableEq

/-- The guard of the open-image effect:
`if (!StreetSmartApi || !imageId || !initialized) return () => {};`. -/
def openGuard (i : OpenInputs) : Bool :=
  i.api && truthyStr i.imageId && i.initialized

/-- How the openImage promise settled before this run's cleanup ran:
resolved with a first viewer (identified by a number), resolved with
a falsy result or empty result array, rejected, or still pending. -/
inductive OpenOutcome where
  | viewerResolved : Nat → OpenOutcome
  | emptyResolved : OpenOutcome
  | failed : OpenOutcome
  | pending : OpenOutcome
deriving DecidableEq

/-- Externally visible actions of the open-image effect. -/
inductive SessionAction where
  | openCall : String → SessionAction
  | onViewChange : Nat → SessionAction
  | onRecordingClick : Nat → SessionAction
  | offViewChange : Nat → SessionAction
  | offRecordingClick : Nat → SessionAction
  | setOpenError : SessionAction
deriving DecidableEq

/-- The body of the open-image effect: behind the guard it issues
openImage(imageId); when the promise resolves with a truthy first
result the run assigns its local panoramaViewer and both handler
closures and subscribes them on that viewer; a rejection records the
error; a pending or empty resolution leaves the locals unset. -/
def openBody (i : OpenInputs) (o : OpenOutcome) : List SessionAction :=
  if openGuard i then
    [.openCall (i.imageId.getD "")] ++
    (match o with
     | .viewerResolved v => [.onViewChange v, .onRecordingClick v]
     | .emptyResolved => []
     | .failed => [.setOpenError]
     | .pending => [])
  else []

/-- The cleanup of the open-image effect. A run whose guard failed
returned the empty cleanup. Otherwise the cleanup closes over the
run's own panoramaViewer and handler locals and evaluates
`if (panoramaViewer && viewChangeHandler)`; both off calls go to the
closed-over viewer, so they target exactly the instance this run
subscribed, and only when the subscription actually happened. -/
def openCleanup (i : OpenInputs) (o : OpenOutcome) : List SessionAction :=
  if openGuard i then
    match o with
    | .viewerResolved v => [.offViewChange v, .offRecordingClick v]
    | _ => []
  else []

/-- A full history of the open-image effect: each run's body executes,
and its cleanup executes before the next run's body (or at unmount). -/
def sessionTrace : List (OpenInputs × OpenOutcome) → List SessionAction
  | [] => []
  | r :: rest => openBody r.1 r.2 ++ openCleanup r.1 r.2 ++ sessionTrace rest

/-! ### Presentation flags -/

/-- The rendered state the presentation flags read. -/
structure ViewFlags where
  streetSmartApi : Bool
  initializing : Bool
  initialized : Bool
  imageId : Option String
  username : Option String
  password : Option String
  errorSet : Bool
  mapPointVisible : Bool
deriving DecidableEq

/-- `const hasCredentials = username && password;`. -/
def hasCredentials (s : ViewFlags) : Bool :=
  truthyStr s.username && truthyStr s.password

/-- `const showCredentialsForm = !hasCredentials;`. -/
def showCredentialsForm (s : ViewFlags) : Bool :=
  !hasCredentials s

/-- `const showPanoramaViewer = StreetSmartApi && initialized && imageId && !showCredentialsForm && !error;`. -/
def showPanoramaViewer (s : ViewFlags) : Bool :=
  s.streetSmartApi && s.initialized && truthyStr s.imageId &&
    !showCredentialsForm s && !s.errorSet

/-- `const showEmptyView = !showCredentialsForm && !showPanoramaViewer && !error;`. -/
def showEmptyView (s : ViewFlags) : Bool :=
  !showCredentialsForm s && !showPanoramaViewer s && !s.errorSet

/-- What the EmptyView component renders. -/
inductive EmptyVariant where
  | zoomIn
  | plainEmpty
  | initializingMsg
  | loadingAPI
  | nullView
deriving DecidableEq

/-- Embedding of the EmptyView component: the cascade of early
returns in source order. -/
def EmptyView (initializing initialized streetSmartApi mapPointVisible : Bool) :
    EmptyVariant :=
  if initialized && !mapPointVisible then .zoomIn
  else if initialized then .plainEmpty
  else if initializing then .initializingMsg
  else if !streetSmartApi then .loadingAPI
  else .nullView

/-- The empty-state actually rendered: EmptyView is mounted only when
showEmptyView holds. -/
def renderedEmptyState (s : ViewFlags) : Option EmptyVariant :=
  if showEmptyView s then
    some (EmptyView s.initializing s.initialized s.streetSmartApi s.mapPointVisible)
  else none

/-! ### Reload (Error Recovery Controller) -/

/-- The slice of component state the reload button touches. -/
structure RecoveryState where
  error : Option ErrorPayload
  reload : Nat
deriving DecidableEq

/-- Embedding of the reload button onClick:
`setError(null); try { setReload(reload + 1) } catch (e) { console.error(e) }`. -/
def reloadClick (s : RecoveryState) : RecoveryState :=
  { error := none, reload := s.reload + 1 }

/-! ### Theorems about getErrorMessage (claim C1) -/

/-- Claim C1, counterexample: a failure payload that is an object
whose message field contains the 401 indicator does NOT get the
localized invalid-credentials message, because the source calls
indexOf on the payload itself (only strings have indexOf) and then
falls back to the message field. -/
theorem getErrorMessage_message_field_counterexample :
    getErrorMessage (some (.obj (some userInfo401))) = .text userInfo401 ∧
    getErrorMessage (some (.obj (some userInfo401))) ≠
      .localized "streetView.cyclomedia.invalidCredentials" := by
  exact ⟨rfl, by decide⟩

/-- Claim C1, amended: a failure payload that is itself a string
containing the 401 indicator yields the localized invalid-credentials
message; a string payload not containing it yields the unknown-error
fallback (a string has no message field); an object payload yields
its message field when present and the fallback otherwise; an absent
payload yields the fallback. -/
theorem getErrorMessage_amended :
    (∀ s : String, jsIndexOfNonneg s userInfo401 = true →
      getErrorMessage (some (.str s)) =
        .localized "streetView.cyclomedia.invalidCredentials") ∧
    (∀ s : String, jsIndexOfNonneg s userInfo401 = false →
      getErrorMessage (some (.str s)) = .text "Unknown error") ∧
    (∀ m : String, getErrorMessage (some (.obj (some m))) = .text m) ∧
    getErrorMessage (some (.obj none)) = .text "Unknown error" ∧
    getErrorMessage none = .text "Unknown error" := by
  refine ⟨?_, ?_, fun m => rfl, rfl, rfl⟩
  · intro s h
    simp [getErrorMessage, h]
  · intro s h
    simp [getErrorMessage, h]

/-- Witness for getErrorMessage_amended at concrete payloads. -/
theorem getErrorMessage_amended_witness :
    getErrorMessage (some (.str userInfo401)) =
      .localized "streetView.cyclomedia.invalidCredentials" ∧
    getErrorMessage (some (.str "boom")) = .text "Unknown error" :=
  ⟨getErrorMessage_amended.1 userInfo401 (by decide),
   getErrorMessage_amended.2.1 "boom" (by decide)⟩

/-! ### Theorems about changeRecording (claim C2) -/

/-- Concrete recording with a 2-element coordinate array. -/
def recTwoElem : Recording :=
  { xyz := some [10, 20], id := some "img-1", extra := [] }

/-- Concrete recording with the 3-element coordinate array of the
specification example. -/
def recThreeElem : Recording :=
  { xyz := some [10, 20, 5], id := some "img-1", extra := [] }

/-- Claim C2, counterexample: the source guards only on truthiness of
xyz and id, never on the array having 3 elements, so a recording with
a 2-element coordinate array still produces exactly one setLocation
call, refuting the claimed equivalence. -/
theorem changeRecording_two_element_counterexample :
    changeRecording (some { recording := some recTwoElem }) =
      [{ latLng := { lat := some 20, lng := some 10 },
         properties := { recording := recTwoElem, imageId := some "img-1" } }] ∧
    recTwoElem.xyz = some [10, 20] ∧ ([10, 20] : List Int).length ≠ 3 := by
  exact ⟨rfl, rfl, by decide⟩

/-- Claim C2, amended: the handler calls setLocation exactly once iff
the detail carries a recording with a coordinate array of any length
(any array is truthy) and a truthy identifier; the forwarded Location
has latLng.lat equal to coordinate index 1 and latLng.lng equal to
coordinate index 0 (absent when the array is too short) and
properties equal to the full recording with its id copied into an
imageId field; a recording lacking xyz or a truthy id, a detail
lacking a recording, and a missing detail produce no call. -/
theorem changeRecording_amended :
    (∀ (r : Recording) (xs : List Int) (i : String),
      r.xyz = some xs → r.id = some i → i ≠ "" →
      changeRecording (some { recording := some r }) =
        [{ latLng := { lat := xs.get? 1, lng := xs.get? 0 },
           properties := { recording := r, imageId := some i } }]) ∧
    (∀ r : Recording, r.xyz = none ∨ r.id = none ∨ r.id = some "" →
      changeRecording (some { recording := some r }) = []) ∧
    changeRecording (some { recording := none }) = [] ∧
    changeRecording none = [] := by
  refine ⟨?_, ?_, rfl, rfl⟩
  · intro r xs i hx hi hne
    simp [changeRecording, hx, hi, hne]
  · intro r h
    rcases h with h | h | h
    · rcases hid : r.id with _ | i <;> simp [changeRecording, h, hid]
    · rcases hx : r.xyz with _ | xs <;> simp [changeRecording, h, hx]
    · rcases hx : r.xyz with _ | xs <;> simp [changeRecording, h, hx]

/-- Witness for changeRecording_amended at the concrete recordings of
the specification example and at a recording without coordinates. -/
theorem changeRecording_amended_witness :
    changeRecording (some { recording := some recThreeElem }) =
      [{ latLng := { lat := some 20, lng := some 10 },
         properties := { recording := recThreeElem, imageId := some "img-1" } }] ∧
    changeRecording
      (some { recording := some { xyz := none, id := some "img-1", extra := [] } }) = [] :=
  ⟨changeRecording_amended.1 recThreeElem [10, 20, 5] "img-1" rfl rfl (by decide),
   changeRecording_amended.2.1 { xyz := none, id := some "img-1", extra := [] }
     (Or.inl rfl)⟩

/-! ### Theorems about changeView (claims C9 and C10) -/

/-- Claim C9: a view-change event whose detail is yaw 45, pitch -10
produces exactly one setPov call with heading 45 and pitch -10: yaw
is renamed to heading and pitch is forwarded unchanged. -/
theorem changeView_concrete_pov :
    changeView (some { yaw := some 45, pitch := some (-10) }) =
      [{ heading := some 45, pitch := some (-10) }] ∧
    (changeView (some { yaw := some 45, pitch := some (-10) })).length = 1 := by
  exact ⟨rfl, rfl⟩

/-- Claim C10: for every delivered view-change event the handler
calls setPov exactly once; with no detail object, or with a detail
lacking yaw or pitch, the host receives the absent fields unchanged.
The handler is a total function in this embedding, reflecting that
the source destructuring with the default and the nullish fallback
never throws. -/
theorem changeView_total_single_call :
    (∀ d : Option ViewDetail, (changeView d).length = 1) ∧
    changeView none = [{ heading := none, pitch := none }] ∧
    (∀ y p : Option Int,
      changeView (some { yaw := y, pitch := p }) = [{ heading := y, pitch := p }]) := by
  refine ⟨?_, rfl, fun y p => rfl⟩
  intro d
  cases d <;> rfl

/-! ### Theorems about the open-image effect (claim C3) -/

/-- Claim C3: across any history of open-image effect runs, the
cleanup unsubscribes a handler from a viewer exactly when the same
run subscribed a handler on that viewer (never a different or stale
instance); the two off calls always come together (both registered
handlers are unsubscribed); the cleanup acts only when the run both
passed its guard and resolved a viewer (instance and handlers exist);
and in the interleaved trace the cleanup of each run sits between its
own body and the body of the following run, hence before any new
open call for the new inputs. -/
theorem session_cleanup_pairing :
    (∀ (i : OpenInputs) (o : OpenOutcome) (v : Nat),
      SessionAction.offViewChange v ∈ openCleanup i o ↔
        SessionAction.onViewChange v ∈ openBody i o) ∧
    (∀ (i : OpenInputs) (o : OpenOutcome) (v : Nat),
      SessionAction.offRecordingClick v ∈ openCleanup i o ↔
        SessionAction.offViewChange v ∈ openCleanup i o) ∧
    (∀ (i : OpenInputs) (o : OpenOutcome),
      openCleanup i o ≠ [] ↔
        (openGuard i = true ∧ ∃ v, o = OpenOutcome.viewerResolved v)) ∧
    (∀ (pre : List (OpenInputs × OpenOutcome)) (r1 r2 : OpenInputs × OpenOutcome)
        (post : List (OpenInputs × OpenOutcome)),
      sessionTrace (pre ++ r1 :: r2 :: post) =
        sessionTrace pre ++
          (openBody r1.1 r1.2 ++ openCleanup r1.1 r1.2) ++
          (openBody r2.1 r2.2 ++ openCleanup r2.1 r2.2) ++ sessionTrace post) := by
  refine ⟨?_, ?_, ?_, ?_⟩
  · intro i o v
    by_cases hg : openGuard i = true <;>
      cases o <;>
        simp [openCleanup, openBody, hg]
  · intro i o v
    by_cases hg : openGuard i = true <;>
      cases o <;>
        simp [openCleanup, hg]
  · intro i o
    by_cases hg : openGuard i = true <;>
      cases o <;>
        simp [openCleanup, hg]
  · intro pre r1 r2 post
    induction pre with
    | nil => simp [sessionTrace, List.append_assoc]
    | cons h t ih => simp [sessionTrace, ih, List.append_assoc]

/-! ### Theorems about the init effect (claims C4 and C5) -/

/-- Claim C4: the init effect issues the authenticate-and-initialize
call, and the transition to the initializing state, exactly when the
api handle, a truthy username, a truthy password and a truthy apiKey
are all present; when any of them is absent the run performs no
action at all and installs the empty cleanup. -/
theorem init_presence_gating :
    (∀ (i : InitInputs) (t : Option Nat) (o : InitOutcome),
      (∃ t2 u p k, InitAction.initCall t2 u p k ∈ initBody i t o) ↔
        (i.streetSmartApi = true ∧ (∃ u, i.username = some u ∧ u ≠ "") ∧
         (∃ p, i.password = some p ∧ p ≠ "") ∧ (∃ k, i.apiKey = some k ∧ k ≠ ""))) ∧
    (∀ (i : InitInputs) (t : Option Nat) (o : InitOutcome),
      (InitAction.setInitializing true ∈ initBody i t o) ↔
        (∃ t2 u p k, InitAction.initCall t2 u p k ∈ initBody i t o)) ∧
    (∀ (i : InitInputs) (t : Option Nat) (o : InitOutcome) (hd dt : Bool),
      initGuard i = false →
        initBody i t o = [] ∧ initCleanup i t hd dt = ([], false)) := by
  refine ⟨?_, ?_, ?_⟩
  · intro i t o
    by_cases hg : initGuard i = true
    · have hg2 := hg
      simp only [initGuard, Bool.and_eq_true, truthyStr_iff] at hg2
      cases o <;>
        simp [initBody, hg, hg2.1.1.1, hg2.1.1.2, hg2.1.2, hg2.2]
    · have hg2 : initGuard i = false := by
        revert hg
        cases initGuard i <;> simp
      constructor
      · rintro ⟨t2, u, p, k, hmem⟩
        simp [initBody, hg2] at hmem
      · rintro ⟨ha, hu, hp, hk⟩
        exfalso
        apply hg
        simp [initGuard, Bool.and_eq_true, truthyStr_iff, ha]
        exact ⟨⟨hu, hp⟩, hk⟩
  · intro i t o
    by_cases hg : initGuard i = true <;>
      cases o <;>
        simp [initBody, hg]
  · intro i t o hd dt hg
    refine ⟨?_, ?_⟩
    · simp [initBody, hg]
    · cases hd <;> simp [initCleanup, hg]

/-- Inputs with everything present, used by witnesses. -/
def iFull : InitInputs :=
  { streetSmartApi := true, username := some "u", password := some "p",
    apiKey := some "k" }

/-- Inputs with the username absent, used by witnesses. -/
def iNoUser : InitInputs :=
  { streetSmartApi := true, username := none, password := some "p",
    apiKey := some "k" }

/-- Witness for init_presence_gating: with the username absent the
run performs nothing and installs the empty cleanup. -/
theorem init_presence_gating_witness :
    initBody iNoUser none InitOutcome.pending = [] ∧
    initCleanup iNoUser none true false = ([], false) :=
  init_presence_gating.2.2 iNoUser none InitOutcome.pending true false (by decide)

/-- Claim C5: the cleanup of the init effect never lets an exception
escape; whenever a previous run actually started an initialization
(its guard passed) and the api exposes destroy, the cleanup invokes
destroy against the captured target element, every destroy it emits
targets exactly that element, and a destroy failure additionally
produces a log action instead of propagating. -/
theorem destroy_cleanup_no_propagation :
    (∀ (i : InitInputs) (t : Option Nat) (hd dt : Bool),
      (initCleanup i t hd dt).2 = false) ∧
    (∀ (i : InitInputs) (t : Option Nat) (dt : Bool),
      initGuard i = true →
      InitAction.destroyCall t ∈ (initCleanup i t true dt).1 ∧
      (dt = true → InitAction.logDestroyError ∈ (initCleanup i t true dt).1) ∧
      (∀ t2, InitAction.destroyCall t2 ∈ (initCleanup i t true dt).1 → t2 = t)) := by
  refine ⟨?_, ?_⟩
  · intro i t hd dt
    by_cases hg : initGuard i = true <;>
      cases hd <;>
        cases dt <;>
          simp [initCleanup, destroyAttempt, hg]
  · intro i t dt hg
    cases dt <;>
      simp [initCleanup, destroyAttempt, hg]

/-- Witness for destroy_cleanup_no_propagation: full inputs, a
throwing destroy; the destroy call and the log both appear and
nothing escapes. -/
theorem destroy_cleanup_no_propagation_witness :
    (initCleanup iFull (some 7) true true).2 = false ∧
    InitAction.destroyCall (some 7) ∈ (initCleanup iFull (some 7) true true).1 ∧
    InitAction.logDestroyError ∈ (initCleanup iFull (some 7) true true).1 := by
  have h := destroy_cleanup_no_propagation.2 iFull (some 7) true (by decide)
  exact ⟨destroy_cleanup_no_propagation.1 iFull (some 7) true true, h.1, h.2.1 rfl⟩

/-! ### Theorems about the presentation flags (claims C6 and C7) -/

/-- Claim C6: the panorama viewer is visible exactly when the api
handle is present, the lifecycle reached initialized, a truthy
imageId is present, both credential fields are truthy and no error
is set. -/
theorem showPanoramaViewer_iff :
    ∀ s : ViewFlags, showPanoramaViewer s = true ↔
      (s.streetSmartApi = true ∧ s.initialized = true ∧
       (∃ im, s.imageId = some im ∧ im ≠ "") ∧
       (∃ u, s.username = some u ∧ u ≠ "") ∧
       (∃ p, s.password = some p ∧ p ≠ "") ∧ s.errorSet = false) := by
  intro s
  simp [showPanoramaViewer, showCredentialsForm, hasCredentials,
    Bool.and_eq_true, Bool.not_eq_true', Bool.and_eq_false_iff,
    truthyStr_iff]
  tauto

/-- Claim C7: with credentials present and no error set, the selector
yields the loading-API empty state when the api handle is unresolved
(and so neither initializing nor initialized), the initializing empty
state while initialization is in progress, the zoom-in empty state
when initialized with the map point not visible and no truthy
imageId, and with api handle, initialized state and a truthy imageId
the panorama viewer is visible and the empty state is absent. -/
theorem presentation_selector_variants :
    ∀ s : ViewFlags, hasCredentials s = true → s.errorSet = false →
      ((s.streetSmartApi = false → s.initializing = false → s.initialized = false →
         renderedEmptyState s = some EmptyVariant.loadingAPI) ∧
       (s.streetSmartApi = true → s.initializing = true → s.initialized = false →
         renderedEmptyState s = some EmptyVariant.initializingMsg) ∧
       (s.initialized = true → s.mapPointVisible = false → truthyStr s.imageId = false →
         renderedEmptyState s = some EmptyVariant.zoomIn) ∧
       (s.streetSmartApi = true → s.initialized = true → truthyStr s.imageId = true →
         showPanoramaViewer s = true ∧ renderedEmptyState s = none)) := by
  intro s hc he
  refine ⟨?_, ?_, ?_, ?_⟩
  · intro ha hg hi
    simp [renderedEmptyState, showEmptyView, showPanoramaViewer,
      showCredentialsForm, EmptyView, hc, he, ha, hg, hi]
  · intro ha hg hi
    simp [renderedEmptyState, showEmptyView, showPanoramaViewer,
      showCredentialsForm, EmptyView, hc, he, ha, hg, hi]
  · intro hi hm him
    simp [renderedEmptyState, showEmptyView, showPanoramaViewer,
      showCredentialsForm, EmptyView, hc, he, hi, hm, him]
  · intro ha hi him
    simp [renderedEmptyState, showEmptyView, showPanoramaViewer,
      showCredentialsForm, EmptyView, hc, he, ha, hi, him]

/-- State before the api handle resolves, used by the witness. -/
def sLoading : ViewFlags :=
  { streetSmartApi := false, initializing := false, initialized := false,
    imageId := none, username := some "u", password := some "p",
    errorSet := false, mapPointVisible := false }

/-- State with everything ready for the panorama viewer, used by the
witness. -/
def sReady : ViewFlags :=
  { streetSmartApi := true, initializing := false, initialized := true,
    imageId := some "img-1", username := some "u", password := some "p",
    errorSet := false, mapPointVisible := true }

/-- Witness for presentation_selector_variants at two concrete
states: before the api resolves the loading-API empty state shows,
and in the fully ready state the panorama viewer shows with the empty
state absent. -/
theorem presentation_selector_variants_witness :
    renderedEmptyState sLoading = some EmptyVariant.loadingAPI ∧
    (showPanoramaViewer sReady = true ∧ renderedEmptyState sReady = none) :=
  ⟨(presentation_selector_variants sLoading (by decide) rfl).1 rfl rfl rfl,
   (presentation_selector_variants sReady (by decide) rfl).2.2.2 rfl rfl (by decide)⟩

/-! ### Theorems about reload recovery (claim C8) -/

/-- Claim C8: the reload click clears the error and increments the
reload counter by exactly one; and the effect re-run it forces is the
previous cleanup followed by the new body, in which (previous guard
passed, destroy available, new guard passing) the cleanup performs
exactly one destroy and no init while the new body performs exactly
one init and no destroy, so exactly one destroy is followed by
exactly one new initialize attempt. -/
theorem reload_cycle :
    (∀ s : RecoveryState,
      (reloadClick s).reload = s.reload + 1 ∧ (reloadClick s).error = none) ∧
    (∀ (prev : InitRun) (next : InitInputs) (t : Option Nat) (o : InitOutcome),
      initGuard prev.inputs = true → prev.hasDestroy = true → initGuard next = true →
      initRerunTrace prev next t o =
        (initCleanup prev.inputs prev.target prev.hasDestroy prev.destroyThrows).1 ++
          initBody next t o ∧
      ((initCleanup prev.inputs prev.target prev.hasDestroy prev.destroyThrows).1).countP
          isDestroyCall = 1 ∧
      ((initCleanup prev.inputs prev.target prev.hasDestroy prev.destroyThrows).1).countP
          isInitCall = 0 ∧
      (initBody next t o).countP isInitCall = 1 ∧
      (initBody next t o).countP isDestroyCall = 0) := by
  refine ⟨fun s => ⟨rfl, rfl⟩, ?_⟩
  intro prev next t o hprev hd hnext
  refine ⟨rfl, ?_, ?_, ?_, ?_⟩
  · rw [hd]
    cases hdt : prev.destroyThrows <;>
      simp [initCleanup, destroyAttempt, hprev, isDestroyCall, isInitCall]
  · rw [hd]
    cases hdt : prev.destroyThrows <;>
      simp [initCleanup, destroyAttempt, hprev, isDestroyCall, isInitCall]
  · cases o <;>
      simp [initBody, hnext, isInitCall, isDestroyCall]
  · cases o <;>
      simp [initBody, hnext, isInitCall, isDestroyCall]

/-- A fully initialized previous run, used by the witness. -/
def runFull : InitRun :=
  { inputs := iFull, target := some 3, outcome := InitOutcome.success,
    hasDestroy := true, destroyThrows := false }

/-- Witness for reload_cycle: the reload click on a concrete state,
and the concrete re-run trace with one destroy in the cleanup part
and one init in the body part. -/
theorem reload_cycle_witness :
    reloadClick { error := some (ErrorPayload.str "boom"), reload := 1 } =
      { error := none, reload := 2 } ∧
    ((initCleanup runFull.inputs runFull.target runFull.hasDestroy
        runFull.destroyThrows).1).countP isDestroyCall = 1 ∧
    (initBody iFull (some 3) InitOutcome.pending).countP isInitCall = 1 := by
  have h := reload_cycle.2 runFull iFull (some 3) InitOutcome.pending
    (by decide) rfl (by decide)
  exact ⟨rfl, h.2.1, h.2.2.2.1⟩

end Cyclomedia
